import Mathlib

/-!
Verification of the real-time update feed and connection manager of the
disaster-response dashboard client.

The core under study lives in two places of the repository:

* `RealTimeUpdates` (src/unnamed/part_003, lines 1-216): a component that
  attaches listeners for four named socket channels, converts each inbound
  message into a `RealTimeUpdate` record and keeps a most-recent-first
  bounded list of records (`addUpdate`, `clearUpdates`).
* `Dashboard` (src/src/components/Dashboard.tsx, lines 21-46): the owner of
  the socket.io transport, re-created whenever the `token` credential
  changes, closed on teardown.

The embedding below is a shallow one.  JavaScript arrays become Lean lists,
the React state of the component becomes an explicit record type, and the
event-driven callbacks become a step function over that state.  Sources of
nondeterminism that the code reads from the environment (`Date.now()`,
`Math.random()`) are passed in explicitly with each event, so that theorems
quantify over every possible behaviour of those sources.
-/

/-- The four channel names of the fixed channel table, i.e. the `type` field
of the `RealTimeUpdate` interface (part_003 line 9). -/
inductive Channel : Type
  | disasterUpdate
  | resourceUpdate
  | reportUpdate
  | socialMediaUpdated
deriving DecidableEq

/-- The literal channel-name string used both in the `socket.on` registration
and in the `type` field (part_003 lines 38-59). -/
def channelName : Channel → String
  | .disasterUpdate => "disaster-update"
  | .resourceUpdate => "resource-update"
  | .reportUpdate => "report-update"
  | .socialMediaUpdated => "social_media_updated"

/-- The id string built at part_003 line 73:
`id: type-Date.now()-Math.random()` (template literal).  `Date.now()` is a
millisecond count, modelled as a natural number rendered in decimal;
`Math.random()` is modelled as the string the template literal renders the
drawn float to. -/
def mkId (t : Channel) (now : Nat) (rnd : String) : String :=
  channelName t ++ "-" ++ toString now ++ "-" ++ rnd

/-- The `RealTimeUpdate` interface (part_003 lines 7-12).  The payload type
is a parameter `P`: the code declares `data: any` and never inspects it.
The source stores `timestamp` as `new Date().toISOString()`; we keep the
underlying millisecond instant, which determines that string. -/
structure RealTimeUpdate (P : Type) : Type where
  id : String
  type : Channel
  data : P
  timestamp : Nat
deriving DecidableEq

/-- The React state of the `RealTimeUpdates` component together with its
listener registration status:
`updates` is the `useState` list (line 19), `isConnected` the `useState`
boolean (line 20), and `attached` records whether the effect's listeners are
currently registered (they are removed all at once by the cleanup at lines
61-68, which is what `detach` means below). -/
structure FeedState (P : Type) : Type where
  updates : List (RealTimeUpdate P)
  isConnected : Bool
  attached : Bool
deriving DecidableEq

/-- JavaScript `Array.prototype.slice(start, stop)` for the non-negative
in-range arguments the source uses (the only call is `prev.slice(0, 49)` at
line 79): elements from index `start` up to `stop - 1`. -/
def jsSlice {α : Type} (l : List α) (start stop : Nat) : List α :=
  (l.take stop).drop start

/-- The record constructed at part_003 lines 72-77 for one received message. -/
def mkUpdate {P : Type} (now : Nat) (rnd : String) (t : Channel) (d : P) :
    RealTimeUpdate P :=
  { id := mkId t now rnd, type := t, data := d, timestamp := now }

/-- The spec treats the retention bound as a parameter N; the source fixes
N = 50 by writing `prev.slice(0, 49)`.  This is the capacity-parametric form
of `addUpdate` (the source with `49` replaced by `cap - 1`); `addUpdate`
below is exactly this function at `cap = 50`. -/
def addUpdateCap {P : Type} (cap : Nat) (now : Nat) (rnd : String)
    (t : Channel) (d : P) (s : FeedState P) : FeedState P :=
  { s with updates := mkUpdate now rnd t d :: jsSlice s.updates 0 (cap - 1) }

/-- `addUpdate` (part_003 lines 71-80):
`setUpdates(prev => [newUpdate, ...prev.slice(0, 49)])`. -/
def addUpdate {P : Type} (now : Nat) (rnd : String) (t : Channel) (d : P)
    (s : FeedState P) : FeedState P :=
  { s with updates := mkUpdate now rnd t d :: jsSlice s.updates 0 49 }

/-- `clearUpdates` (part_003 lines 82-84): `setUpdates([])`. -/
def clearUpdates {P : Type} (s : FeedState P) : FeedState P :=
  { s with updates := [] }

/-- Dispatch of an inbound socket event by its name: the four registrations at
part_003 lines 38-59 each call `addUpdate` with the channel name from the
table; an event with any other name has no listener and does nothing. -/
def handleMessage {P : Type} (now : Nat) (rnd : String) (ch : String) (p : P)
    (s : FeedState P) : FeedState P :=
  if ch = "disaster-update" then addUpdate now rnd .disasterUpdate p s
  else if ch = "resource-update" then addUpdate now rnd .resourceUpdate p s
  else if ch = "report-update" then addUpdate now rnd .reportUpdate p s
  else if ch = "social_media_updated" then addUpdate now rnd .socialMediaUpdated p s
  else s

/-- One external stimulus the component can receive: an inbound socket event
carrying a payload, the transport connect/disconnect notifications
(lines 27-35), the user pressing the Clear All button (line 144), or the
effect cleanup removing every listener (lines 61-68). -/
inductive FeedEvent (P : Type) : Type
  | message (ch : String) (payload : P)
  | connect
  | disconnect
  | clear
  | detach

/-- An event together with the environment readings (`Date.now()`,
`Math.random()`) the handler would observe while processing it. -/
structure TimedEvent (P : Type) : Type where
  time : Nat
  rnd : String
  ev : FeedEvent P

/-- The step function of the component: each callback runs only
while its listener is registered (`attached`); `clear` is a UI action and is
always available; `detach` is the effect cleanup. -/
def step {P : Type} (i : TimedEvent P) (s : FeedState P) : FeedState P :=
  match i.ev with
  | .message ch p => if s.attached then handleMessage i.time i.rnd ch p s else s
  | .connect => if s.attached then { s with isConnected := true } else s
  | .disconnect => if s.attached then { s with isConnected := false } else s
  | .clear => clearUpdates s
  | .detach => { s with attached := false }

/-- Process a sequence of stimuli in order. -/
def run {P : Type} (s : FeedState P) : List (TimedEvent P) → FeedState P
  | [] => s
  | i :: evs => run (step i s) evs

/-- The component state right after mount and effect: empty feed (line 19),
`isConnected` initialised from `socket.connected` (line 25), all listeners
registered. -/
def initState (P : Type) (connected : Bool) : FeedState P :=
  { updates := [], isConnected := connected, attached := true }

/-!
Connection manager: `Dashboard` (src/src/components/Dashboard.tsx,
lines 21-46).  The effect keyed on `[token]` creates
`io(url, { auth: { token } })`, and its cleanup calls `newSocket.close()`.
React runs the effect once after mount and re-runs it (cleanup first)
exactly when the `token` dependency changed; with the same token no new
transport is created.  We model transports by the order in which they are
created: `nextId` counts `io(...)` calls, `socketId` is the live transport,
`closed` lists every transport on which `.close()` has been called, in
closing order.
-/

/-- The connection-manager state of `Dashboard`. -/
structure DashState : Type where
  token : Option String
  socketId : Option Nat
  nextId : Nat
  closed : List Nat
deriving DecidableEq

/-- Mount of `Dashboard` with credential `t`: the effect runs once and
unconditionally calls `io(url, \x7b auth: \x7b token \x7d \x7d)`
(Dashboard.tsx lines 25-29, 41) - note there is no guard on `t`. -/
def mount (t : Option String) : DashState :=
  { token := t, socketId := some 0, nextId := 1, closed := [] }

/-- A re-render of `Dashboard` with credential `t`.  React re-runs the
effect exactly when `t` differs from the dependency value of the previous
run: then the cleanup closes the current socket (line 44) and the effect
body creates a new one (lines 27-29), again without any guard on `t`. -/
def openCred (s : DashState) (t : Option String) : DashState :=
  if t = s.token then s
  else
    { token := t
      socketId := some s.nextId
      nextId := s.nextId + 1
      closed := s.closed ++ s.socketId.toList }

/-- Unmount of `Dashboard`: the final cleanup closes the live socket. -/
def unmount (s : DashState) : DashState :=
  { s with socketId := none, closed := s.closed ++ s.socketId.toList }

/-!  Helper lemmas about the feed. -/

theorem jsSlice_zero {α : Type} (l : List α) (stop : Nat) :
    jsSlice l 0 stop = l.take stop := by
  simp [jsSlice]

theorem addUpdateCap_fifty {P : Type} (now : Nat) (rnd : String) (t : Channel)
    (d : P) (s : FeedState P) :
    addUpdateCap 50 now rnd t d s = addUpdate now rnd t d s := rfl

theorem addUpdate_updates {P : Type} (now : Nat) (rnd : String) (t : Channel)
    (d : P) (s : FeedState P) :
    (addUpdate now rnd t d s).updates
      = mkUpdate now rnd t d :: s.updates.take 49 := by
  simp [addUpdate, jsSlice_zero]

theorem addUpdate_length {P : Type} (now : Nat) (rnd : String) (t : Channel)
    (d : P) (s : FeedState P) :
    (addUpdate now rnd t d s).updates.length ≤ 50 := by
  rw [addUpdate_updates]
  simp only [List.length_cons]
  have h := List.length_take_le 49 s.updates
  omega

theorem handleMessage_channelName {P : Type} (now : Nat) (rnd : String)
    (c : Channel) (p : P) (s : FeedState P) :
    handleMessage now rnd (channelName c) p s = addUpdate now rnd c p s := by
  cases c <;> simp [handleMessage, channelName]

theorem handleMessage_updates_cases {P : Type} (now : Nat) (rnd : String)
    (ch : String) (p : P) (s : FeedState P) :
    (∃ c : Channel, ch = channelName c
        ∧ handleMessage now rnd ch p s = addUpdate now rnd c p s)
    ∨ handleMessage now rnd ch p s = s := by
  by_cases h1 : ch = "disaster-update"
  · exact Or.inl ⟨.disasterUpdate, h1, by simp [handleMessage, h1]⟩
  by_cases h2 : ch = "resource-update"
  · exact Or.inl ⟨.resourceUpdate, h2, by simp [handleMessage, h1, h2]⟩
  by_cases h3 : ch = "report-update"
  · exact Or.inl ⟨.reportUpdate, h3, by simp [handleMessage, h1, h2, h3]⟩
  by_cases h4 : ch = "social_media_updated"
  · exact Or.inl ⟨.socialMediaUpdated, h4, by simp [handleMessage, h1, h2, h3, h4]⟩
  · exact Or.inr (by simp [handleMessage, h1, h2, h3, h4])

theorem step_length {P : Type} (i : TimedEvent P) (s : FeedState P)
    (hs : s.updates.length ≤ 50) : (step i s).updates.length ≤ 50 := by
  cases i with
  | mk time rnd ev =>
    cases ev with
    | message ch p =>
      simp only [step]
      by_cases ha : s.attached
      · simp only [ha, if_true]
        rcases handleMessage_updates_cases time rnd ch p s with ⟨c, _, heq⟩ | heq
        · rw [heq]; exact addUpdate_length ..
        · rw [heq]; exact hs
      · simpa [ha]
    | connect => by_cases ha : s.attached <;> simpa [step, ha]
    | disconnect => by_cases ha : s.attached <;> simpa [step, ha]
    | clear => simp [step, clearUpdates]
    | detach => simpa [step]

theorem run_length {P : Type} (evs : List (TimedEvent P)) (s : FeedState P)
    (hs : s.updates.length ≤ 50) : (run s evs).updates.length ≤ 50 := by
  induction evs generalizing s with
  | nil => exact hs
  | cons i evs ih => exact ih (step i s) (step_length i s hs)

/-- A well-formed inbound message on one of the four subscribed channels:
the environment readings at receipt time plus channel and payload. -/
structure Msg (P : Type) : Type where
  time : Nat
  rnd : String
  ch : Channel
  payload : P

/-- The socket event delivering a message. -/
def msgEvent {P : Type} (m : Msg P) : TimedEvent P :=
  { time := m.time, rnd := m.rnd, ev := .message (channelName m.ch) m.payload }

/-- A whole sequence of inbound messages as socket events. -/
def msgsToEvents {P : Type} (msgs : List (Msg P)) : List (TimedEvent P) :=
  msgs.map msgEvent

/-- The record the feed constructs for a message. -/
def recOf {P : Type} (m : Msg P) : RealTimeUpdate P :=
  mkUpdate m.time m.rnd m.ch m.payload

/-- The records of a message sequence, in receipt order. -/
def recsOf {P : Type} (msgs : List (Msg P)) : List (RealTimeUpdate P) :=
  msgs.map recOf

theorem step_msgEvent {P : Type} (m : Msg P) (s : FeedState P)
    (hs : s.attached = true) :
    step (msgEvent m) s = addUpdate m.time m.rnd m.ch m.payload s := by
  simp [step, msgEvent, hs, handleMessage_channelName]

theorem take_cons_take {α : Type} (A : List α) (r : α) (u : List α) :
    List.take 50 (A ++ r :: List.take 49 u) = List.take 50 (A ++ r :: u) := by
  rw [List.take_append_eq_append_take, List.take_append_eq_append_take]
  congr 1
  rcases Nat.eq_zero_or_pos (50 - A.length) with h | h
  · simp [h]
  · obtain ⟨k, hk⟩ : ∃ k, 50 - A.length = k + 1 := ⟨50 - A.length - 1, by omega⟩
    rw [hk]
    simp only [List.take_succ_cons, List.take_take]
    have hk49 : k ≤ 49 := by omega
    rw [Nat.min_eq_left hk49]

/-- Running a sequence of on-channel messages from any attached state whose
feed respects the bound: the result is the 50 most recent records (newest
first) followed, if room remains, by the previous content. -/
theorem run_msgs {P : Type} (msgs : List (Msg P)) (s : FeedState P)
    (hs : s.attached = true) (hlen : s.updates.length ≤ 50) :
    (run s (msgsToEvents msgs)).updates
      = List.take 50 ((recsOf msgs).reverse ++ s.updates) := by
  induction msgs generalizing s with
  | nil =>
    simp [msgsToEvents, recsOf, run, List.take_of_length_le hlen]
  | cons m rest ih =>
    simp only [msgsToEvents, List.map_cons, run]
    rw [step_msgEvent m s hs]
    have h1 : (addUpdate m.time m.rnd m.ch m.payload s).attached = true := hs
    have h2 := addUpdate_length m.time m.rnd m.ch m.payload s
    rw [show run (addUpdate m.time m.rnd m.ch m.payload s) (List.map msgEvent rest)
          = run (addUpdate m.time m.rnd m.ch m.payload s) (msgsToEvents rest) from rfl,
        ih _ h1 h2, addUpdate_updates]
    simp only [recsOf, List.map_cons, List.reverse_cons, recOf, List.append_assoc,
      List.singleton_append]
    exact take_cons_take ..

/-- Claim C1: for every sequence of received stimuli (messages on any
channel, connect/disconnect notifications, clear presses, detach), every
reachable state of the feed holds at most 50 records. -/
theorem c1_records_length_le_fifty {P : Type} (connected : Bool)
    (evs : List (TimedEvent P)) :
    (run (initState P connected) evs).updates.length ≤ 50 :=
  run_length evs _ (by simp [initState])

/-- A concrete sequence of 51 distinct messages, used to witness claim C2. -/
def msgs51 : List (Msg Nat) :=
  (List.range 51).map (fun i => { time := i, rnd := "r", ch := .disasterUpdate, payload := i })

/-- Claim C2: after more than 50 received messages the feed holds exactly the
50 most recently received records, newest first (the older ones are gone);
and at the spec scenario capacity N = 2, receiving A, B, C leaves [C, B]. -/
theorem c2_feed_is_most_recent_take {P : Type} (connected : Bool)
    (msgs : List (Msg P)) (hlen : 50 < msgs.length) :
    (run (initState P connected) (msgsToEvents msgs)).updates
      = List.take 50 (recsOf msgs).reverse
    ∧ (run (initState P connected) (msgsToEvents msgs)).updates.length = 50
    ∧ ((addUpdateCap 2 3 "rc" Channel.reportUpdate "C"
          (addUpdateCap 2 2 "rb" Channel.resourceUpdate "B"
            (addUpdateCap 2 1 "ra" Channel.disasterUpdate "A"
              (initState String true)))).updates.map (fun r => r.data))
      = ["C", "B"] := by
  have hcontent : (run (initState P connected) (msgsToEvents msgs)).updates
      = List.take 50 (recsOf msgs).reverse := by
    rw [run_msgs msgs _ rfl (by simp [initState])]
    simp [initState]
  refine ⟨hcontent, ?_, rfl⟩
  rw [hcontent]
  simp only [List.length_take, List.length_reverse, recsOf, List.length_map]
  omega

/-- Witness for claim C2 at a concrete 51-message sequence. -/
theorem c2_feed_is_most_recent_take_witness :
    50 < msgs51.length
    ∧ ((run (initState Nat true) (msgsToEvents msgs51)).updates
        = List.take 50 (recsOf msgs51).reverse
      ∧ (run (initState Nat true) (msgsToEvents msgs51)).updates.length = 50
      ∧ ((addUpdateCap 2 3 "rc" Channel.reportUpdate "C"
            (addUpdateCap 2 2 "rb" Channel.resourceUpdate "B"
              (addUpdateCap 2 1 "ra" Channel.disasterUpdate "A"
                (initState String true)))).updates.map (fun r => r.data))
        = ["C", "B"]) :=
  ⟨by simp [msgs51], c2_feed_is_most_recent_take true msgs51 (by simp [msgs51])⟩

/-- Two distinct messages (payloads 1 and 2) that the environment delivers
within the same millisecond and for which `Math.random()` happens to render
to the same string. -/
def dupEvents : List (TimedEvent Nat) :=
  [{ time := 1000, rnd := "0.5", ev := .message "disaster-update" 1 },
   { time := 1000, rnd := "0.5", ev := .message "disaster-update" 2 }]

/-- Counterexample to claim C3 as stated: the id is built from the channel
name, `Date.now()` and `Math.random()` only, so when the random source
repeats a value within one millisecond the two distinct records (their
payloads differ) carry the same id. -/
theorem c3_counterexample_duplicate_id :
    ((run (initState Nat true) dupEvents).updates.map (fun r => r.id))
      = ["disaster-update-1000-0.5", "disaster-update-1000-0.5"]
    ∧ (run (initState Nat true) dupEvents).updates[0]?
        ≠ (run (initState Nat true) dupEvents).updates[1]? := by
  constructor
  · rfl
  · decide

/-- Claim C3, amended: within one channel and one millisecond, distinct
`Math.random()` renderings yield distinct ids; uniqueness therefore holds
exactly when the random source never repeats a rendering for the same
channel within the same millisecond, and is not unconditional. -/
theorem c3_id_injective_in_rnd (t : Channel) (now : Nat) (r1 r2 : String)
    (h : r1 ≠ r2) : mkId t now r1 ≠ mkId t now r2 := by
  intro heq
  apply h
  have hd := congrArg String.data heq
  simp only [mkId, String.data_append] at hd
  exact String.ext (by simpa using hd)

/-- Witness for claim C3 (amended) at concrete random renderings. -/
theorem c3_id_injective_in_rnd_witness :
    ("0.1" : String) ≠ "0.2"
    ∧ mkId Channel.disasterUpdate 1000 "0.1" ≠ mkId Channel.disasterUpdate 1000 "0.2" :=
  ⟨by decide, c3_id_injective_in_rnd Channel.disasterUpdate 1000 "0.1" "0.2" (by decide)⟩

/-- Counterexample to claim C4 as stated: from a session opened with
credential "a", a change to an absent credential still creates a new
transport (`io(...)` is called unconditionally in the effect body), rather
than opening none. -/
theorem c4_counterexample_absent_credential_opens :
    (openCred (mount (some "a")) none).socketId = some 1
    ∧ (openCred (mount (some "a")) none).nextId = 2 := by
  decide

/-- Claim C4, amended: `open(credential)` is idempotent per credential (a
re-render with the unchanged credential creates no transport and changes
nothing), and on any credential change the live transport is closed and a
new one is always created - including when the new credential is absent, in
which case the transport is opened carrying the absent credential. -/
theorem c4_open_idempotent_and_replacing (s : DashState) (t : Option String) :
    openCred s s.token = s
    ∧ (t ≠ s.token →
        (openCred s t).closed = s.closed ++ s.socketId.toList
        ∧ (openCred s t).socketId = some s.nextId
        ∧ (openCred s t).nextId = s.nextId + 1
        ∧ (openCred s t).token = t) := by
  constructor
  · simp [openCred]
  · intro h
    simp [openCred, h]

/-- Witness for claim C4 (amended) on a concrete credential change. -/
theorem c4_open_idempotent_and_replacing_witness :
    (openCred (mount (some "a")) (mount (some "a")).token = mount (some "a")
    ∧ ((some "b" : Option String) ≠ (mount (some "a")).token
       ∧ (openCred (mount (some "a")) (some "b")).closed
           = (mount (some "a")).closed ++ (mount (some "a")).socketId.toList
       ∧ (openCred (mount (some "a")) (some "b")).socketId = some (mount (some "a")).nextId
       ∧ (openCred (mount (some "a")) (some "b")).nextId = (mount (some "a")).nextId + 1
       ∧ (openCred (mount (some "a")) (some "b")).token = some "b")) := by
  have h := c4_open_idempotent_and_replacing (mount (some "a")) (some "b")
  have hne : (some "b" : Option String) ≠ (mount (some "a")).token := by decide
  exact ⟨h.1, hne, h.2 hne⟩

/-- Claim C5: an inbound message on a subscribed channel synchronously
prepends one record carrying that channel and payload; in the spec scenario
(disaster-update payload 7 then resource-update payload 3 from an empty
feed) the records read newest first. -/
theorem c5_message_prepends_record {P : Type} (s : FeedState P) (c : Channel)
    (p : P) (now : Nat) (rnd : String) (hs : s.attached = true) :
    (step { time := now, rnd := rnd, ev := .message (channelName c) p } s).updates
      = mkUpdate now rnd c p :: s.updates.take 49
    ∧ ((run (initState Nat true)
          [{ time := 1, rnd := "r1", ev := .message "disaster-update" 7 },
           { time := 2, rnd := "r2", ev := .message "resource-update" 3 }]).updates.map
        (fun r => (r.type, r.data)))
      = [(Channel.resourceUpdate, 3), (Channel.disasterUpdate, 7)] := by
  constructor
  · simp [step, hs, handleMessage_channelName, addUpdate_updates]
  · rfl

/-- Witness for claim C5 at a concrete attached state and message. -/
theorem c5_message_prepends_record_witness :
    (step { time := 10, rnd := "z", ev := .message (channelName Channel.reportUpdate) (5 : Nat) }
        (initState Nat true)).updates
      = mkUpdate 10 "z" Channel.reportUpdate 5 :: (initState Nat true).updates.take 49
    ∧ ((run (initState Nat true)
          [{ time := 1, rnd := "r1", ev := .message "disaster-update" 7 },
           { time := 2, rnd := "r2", ev := .message "resource-update" 3 }]).updates.map
        (fun r => (r.type, r.data)))
      = [(Channel.resourceUpdate, 3), (Channel.disasterUpdate, 7)] :=
  c5_message_prepends_record (initState Nat true) Channel.reportUpdate 5 10 "z" rfl

/-- A stimulus that is an inbound socket message (on any channel name). -/
def isMessage {P : Type} (i : TimedEvent P) : Prop :=
  ∃ ch p, i.ev = FeedEvent.message ch p

theorem run_detached {P : Type} (evs : List (TimedEvent P)) (s : FeedState P)
    (hs : s.attached = false) (hmsg : ∀ i ∈ evs, isMessage i) :
    (run s evs).updates = s.updates := by
  induction evs generalizing s with
  | nil => rfl
  | cons i evs ih =>
    have hstep : step i s = s := by
      obtain ⟨ch, p, hev⟩ := hmsg i (List.mem_cons_self i evs)
      simp [step, hev, hs]
    show (run (step i s) evs).updates = s.updates
    rw [hstep]
    exact ih s hs (fun j hj => hmsg j (List.mem_cons_of_mem i hj))

/-- Claim C6: after the cleanup removes the listeners, no inbound message on
any channel ever changes the retained feed content. -/
theorem c6_detach_stops_recording {P : Type} (s : FeedState P) (now : Nat)
    (rnd : String) (evs : List (TimedEvent P))
    (hmsg : ∀ i ∈ evs, isMessage i) :
    (run (step { time := now, rnd := rnd, ev := .detach } s) evs).updates
      = s.updates := by
  rw [run_detached evs _ rfl hmsg]
  rfl

/-- Witness for claim C6: one post-detach message leaves the feed unchanged. -/
theorem c6_detach_stops_recording_witness :
    (run (step { time := 0, rnd := "p", ev := FeedEvent.detach } (initState Nat true))
        [{ time := 5, rnd := "q", ev := FeedEvent.message "disaster-update" 1 }]).updates
      = (initState Nat true).updates :=
  c6_detach_stops_recording (initState Nat true) 0 "p" _ (by
    intro i hi
    simp only [List.mem_singleton] at hi
    subst hi
    exact ⟨"disaster-update", 1, rfl⟩)

/-- Claim C7: clearing empties the feed and changes nothing else - connection
state and listener registration are untouched. -/
theorem c7_clear_empties_and_frames {P : Type} (s : FeedState P) :
    (clearUpdates s).updates = []
    ∧ (clearUpdates s).isConnected = s.isConnected
    ∧ (clearUpdates s).attached = s.attached :=
  ⟨rfl, rfl, rfl⟩

/-- Claim C8: record construction is total over payloads - for every payload
value of every payload type, the handler stores a record carrying it
opaquely; there is no failure or cancellation path for a received message. -/
theorem c8_every_payload_recorded {P : Type} (s : FeedState P) (c : Channel)
    (p : P) (now : Nat) (rnd : String) (hs : s.attached = true) :
    (step { time := now, rnd := rnd, ev := .message (channelName c) p } s).updates.head?
      = some { id := mkId c now rnd, type := c, data := p, timestamp := now }
    ∧ (step { time := now, rnd := rnd, ev := .message (channelName c) p } s).updates.length
      = min (s.updates.length + 1) 50 := by
  have h : (step { time := now, rnd := rnd, ev := .message (channelName c) p } s).updates
      = mkUpdate now rnd c p :: s.updates.take 49 := by
    simp [step, hs, handleMessage_channelName, addUpdate_updates]
  rw [h]
  refine ⟨rfl, ?_⟩
  simp only [List.length_cons, List.length_take]
  omega

/-- Witness for claim C8 with an empty (content-free) payload. -/
theorem c8_every_payload_recorded_witness :
    (step { time := 0, rnd := "q",
            ev := .message (channelName Channel.socialMediaUpdated) ([] : List Nat) }
        (initState (List Nat) true)).updates.head?
      = some { id := mkId Channel.socialMediaUpdated 0 "q", type := Channel.socialMediaUpdated,
               data := ([] : List Nat), timestamp := 0 }
    ∧ (step { time := 0, rnd := "q",
              ev := .message (channelName Channel.socialMediaUpdated) ([] : List Nat) }
        (initState (List Nat) true)).updates.length
      = min ((initState (List Nat) true).updates.length + 1) 50 :=
  c8_every_payload_recorded (initState (List Nat) true) Channel.socialMediaUpdated [] 0 "q" rfl

/-- The sequence of `isConnected` values observed after each stimulus. -/
def connTrace {P : Type} (s : FeedState P) : List (TimedEvent P) → List Bool
  | [] => []
  | i :: evs => (step i s).isConnected :: connTrace (step i s) evs

/-- Claim C9: connect/disconnect notifications never touch the retained
records; a stimulus that changes the connection state always flips it, so
the distinct observed states of any run strictly alternate. -/
theorem c9_state_alternation {P : Type} (s : FeedState P) (i : TimedEvent P)
    (now : Nat) (rnd : String) (evs : List (TimedEvent P)) :
    (step { time := now, rnd := rnd, ev := .connect } s).updates = s.updates
    ∧ (step { time := now, rnd := rnd, ev := .disconnect } s).updates = s.updates
    ∧ ((step i s).isConnected ≠ s.isConnected → (step i s).isConnected = !s.isConnected)
    ∧ List.Chain' (fun a b => b = !a)
        (List.destutter (fun a b => a ≠ b) (s.isConnected :: connTrace s evs)) := by
  refine ⟨?_, ?_, ?_, ?_⟩
  · by_cases h : s.attached <;> simp [step, h]
  · by_cases h : s.attached <;> simp [step, h]
  · intro h
    cases h1 : (step i s).isConnected <;> cases h2 : s.isConnected <;> simp_all
  · exact List.Chain'.imp (fun a b hab => by cases a <;> cases b <;> simp_all)
      (List.destutter_is_chain' (fun a b => a ≠ b) _)

/-- Witness for claim C9 on a concrete state-changing connect notification. -/
theorem c9_state_alternation_witness :
    (step { time := 5, rnd := "w", ev := FeedEvent.connect } (initState Nat false)).updates
      = (initState Nat false).updates
    ∧ (step { time := 5, rnd := "w", ev := FeedEvent.disconnect } (initState Nat false)).updates
      = (initState Nat false).updates
    ∧ (step { time := 0, rnd := "r", ev := FeedEvent.connect } (initState Nat false)).isConnected
      = !(initState Nat false).isConnected
    ∧ List.Chain' (fun a b => b = !a)
        (List.destutter (fun a b => a ≠ b)
          ((initState Nat false).isConnected
            :: connTrace (initState Nat false) [{ time := 0, rnd := "r", ev := FeedEvent.connect }])) := by
  have h := c9_state_alternation (initState Nat false)
    { time := 0, rnd := "r", ev := FeedEvent.connect } 5 "w"
    [{ time := 0, rnd := "r", ev := FeedEvent.connect }]
  exact ⟨h.1, h.2.1, h.2.2.1 (by decide), h.2.2.2⟩

/-- Claim C10: one received message changes the feed only by putting exactly
one new record in front and keeping the first 49 previous records verbatim
and in order; nothing else of the state changes. -/
theorem c10_single_prepend_frame {P : Type} (now : Nat) (rnd : String)
    (t : Channel) (d : P) (s : FeedState P) :
    (addUpdate now rnd t d s).updates = mkUpdate now rnd t d :: s.updates.take 49
    ∧ (addUpdate now rnd t d s).updates.drop 1 = s.updates.take 49
    ∧ (addUpdate now rnd t d s).updates.length = min (s.updates.length + 1) 50
    ∧ (addUpdate now rnd t d s).isConnected = s.isConnected
    ∧ (addUpdate now rnd t d s).attached = s.attached := by
  refine ⟨addUpdate_updates .., ?_, ?_, rfl, rfl⟩
  · rw [addUpdate_updates]
    rfl
  · rw [addUpdate_updates]
    simp only [List.length_cons, List.length_take]
    omega
